import Mathlib

/-!
Verification development for the promotions-evaluation core of the
`ecommerce` repository (`ecommerce/extensions/offer/models.py`,
`ecommerce/enterprise/utils.py`).

Monetary amounts (Python `Decimal`) are embedded as `Rat`; Python `int`
quantities as `Int`; nullable fields as `Option`; raised exceptions as
`Except` error values.  Remote HTTP collaborators and the cache are passed
in as explicit parameters (the Python code reaches them through
request-local state).
-/

set_option maxHeartbeats 1000000
set_option linter.unusedVariables false
set_option linter.unnecessarySimpa false

namespace Ecommerce

/-- Truncation of a rational toward zero (Python `Decimal` `ROUND_DOWN`). -/
def ratTrunc (q : Rat) : Int :=
  if 0 ≤ q then ⌊q⌋ else ⌈q⌉

/-- Modelled from the spec: the MoneyRounder / `Benefit.round` collaborator
(the oscar base class is not under `src/`).  Rounds a monetary amount to the
currency's two-decimal minor-unit precision, truncating toward zero (the
host library's canonical offer rounding, `quantize('.01', ROUND_DOWN)`). -/
def roundCurrency (q : Rat) : Rat :=
  ((ratTrunc (q * 100) : Rat)) / 100

/-- A basket line as seen by the allocator: an identity, the number of units
not yet discounted, and the accumulated discount amount
(spec §3 `BasketLine`; the `price` travels separately in the
`(price, line)` tuples produced by `get_applicable_lines`). -/
structure Line where
  id : Nat
  quantity_without_discount : Int
  discount_total : Rat
deriving Repr, DecidableEq

/-- Modelled from the spec: the line-mutation collaborator invoked as
`line.discount(line, line_discount, quantity_affected)` at
`models.py:117` (oscar's implementation is not under `src/`).  Per
spec §4.5(f) / §3 it decrements `quantity_without_discount` by the affected
quantity and accumulates the line's discount amount, leaving the rest of the
line unchanged. -/
def line_discount_record (l : Line) (discount_value : Rat) (affected_quantity : Int) : Line :=
  { l with
    quantity_without_discount := l.quantity_without_discount - affected_quantity,
    discount_total := l.discount_total + discount_value }

/-- The state produced by the allocation loop of
`EnterpriseCustomerUserPercentageBenefit.apply` (`models.py:98-121`):
the accumulated `discount`, the `affected_lines` list of
`(line, line_discount, quantity_affected)` triples, and the final state of
every line (examined ones mutated, the rest untouched). -/
structure LoopResult where
  discount : Rat
  affected_lines : List (Line × Rat × Int)
  lines_after : List Line
deriving Repr, DecidableEq

/-- The `for price, line in line_tuples` loop of
`EnterpriseCustomerUserPercentageBenefit.apply` (`models.py:102-121`),
embedded as structural recursion over the line tuples with the remaining
discount budget (`discount_amount_available`) and the running
`affected_items` count as loop state. -/
def applyLoop (discount_percent : Rat) (max_affected_items : Int) :
    List (Rat × Line) → Option Rat → Int → LoopResult
  | [], _, _ => ⟨0, [], []⟩
  | (price, line) :: rest, budget, affected_items =>
    if max_affected_items ≤ affected_items then
      ⟨0, [], line :: rest.map (fun t => t.2)⟩
    else if budget = some 0 then
      ⟨0, [], line :: rest.map (fun t => t.2)⟩
    else
      let quantity_affected : Int :=
        min line.quantity_without_discount (max_affected_items - affected_items)
      let line_discount_raw : Rat :=
        roundCurrency (discount_percent / 100 * price * (quantity_affected : Rat))
      let line_discount : Rat :=
        match budget with
        | none => line_discount_raw
        | some b => min line_discount_raw b
      let budget' : Option Rat :=
        match budget with
        | none => none
        | some b => some (b - min line_discount_raw b)
      let line' := line_discount_record line line_discount quantity_affected
      let res := applyLoop discount_percent max_affected_items rest budget'
        (affected_items + quantity_affected)
      ⟨line_discount + res.discount,
       (line', line_discount, quantity_affected) :: res.affected_lines,
       line' :: res.lines_after⟩

/-- Result of `EnterpriseCustomerUserPercentageBenefit.apply`:
the returned `BasketDiscount` amount, the `affected_lines` sequence, the
final line states, and whether `condition.consume_items` was invoked
(`models.py:123-125`: exactly when the accumulated discount is positive). -/
structure BasketApplyResult where
  discount : Rat
  affected_lines : List (Line × Rat × Int)
  lines_after : List Line
  consumed : Bool
deriving Repr, DecidableEq

/-- `waffle.switch_is_active(settings.ENABLE_ENTERPRISE_ON_RUNTIME_SWITCH)`
(`enterprise/utils.py:25-39`), with the switch state passed explicitly. -/
def is_enterprise_feature_enabled (switch_active : Bool) : Bool :=
  switch_active

/-- `is_user_linked_to_enterprise_customer` (`enterprise/utils.py:369-388`).
The function returns `False` when the enterprise feature switch is off and
`True` otherwise; it never inspects `enterprise_customer_uuid` or `user`. -/
def is_user_linked_to_enterprise_customer (switch_active : Bool)
    (enterprise_customer_uuid : String) (user : String) : Bool :=
  if !(is_enterprise_feature_enabled switch_active) then false else true

namespace EnterpriseBenefit

/-- `EnterpriseCustomerUserPercentageBenefit.apply` (`models.py:82-125`).
`linked` is the value of the `is_user_linked_to_enterprise_customer` check on
the basket owner; `value` is `self.value`; `max_affected_items` is the
effective cap computed by `self._effective_max_affected_items()` (the oscar
helper is not under `src/`; per the spec it derives from the benefit's own
nonnegative `max_affected_items` field, hence a `Nat`); `line_tuples` is the
ordered `(price, line)` list from `self.get_applicable_lines(offer, basket)`.
-/
def apply (linked : Bool) (value : Rat) (discount_percent : Option Rat)
    (max_total_discount : Option Rat) (max_affected_items : Nat)
    (line_tuples : List (Rat × Line)) : BasketApplyResult :=
  if !linked then
    ⟨0, [], line_tuples.map (fun t => t.2), false⟩
  else
    let dp := Option.getD discount_percent value
    let dpClamped := min dp 100
    let res := applyLoop dpClamped (max_affected_items : Int) line_tuples max_total_discount 0
    ⟨res.discount, res.affected_lines, res.lines_after, decide (0 < res.discount)⟩

end EnterpriseBenefit

/-! ### Email-domain matching (`ConditionalOffer.is_email_valid`, models.py:194-233)

The Python code builds, for each configured domain `d`, the regex
`(?P<username>.+)@(?P<subdomain>\w+\.)*d`, calls `re.match` (anchored at the
start, greedy, first match returned), and accepts iff the matched text is the
whole email.  The embedding below implements exactly that matcher for the
pattern family in question: `.+` tries the longest username first (the
rightmost `@`), `(\w+\.)*` consumes as many `word+ '.'` blocks as possible
first, and a `.` inside the configured domain is a regex wildcard matching
any single character.  The first successful match is kept even when it does
not consume the whole email (no further backtracking happens after a match
is found, mirroring `re.match` followed by the `group(0) == email` test). -/

/-- Python `\w` on an ASCII string: letters, digits and underscore. -/
def isWordChar (c : Char) : Bool :=
  c.isAlphanum || c == '_'

/-- Consume the tail of one `\w+\.` block: word characters up to (and
including) the first dot; `none` if the block is not closed by a dot. -/
def takeBlockAux : List Char → Option (List Char)
  | [] => none
  | c :: cs => if c == '.' then some cs else if isWordChar c then takeBlockAux cs else none

/-- Consume one `\w+\.` block (at least one word character, then a dot). -/
def takeBlock : List Char → Option (List Char)
  | [] => none
  | c :: cs => if isWordChar c then takeBlockAux cs else none

/-- The suffixes reachable by `(\w+\.)*`, most blocks consumed first
(the greedy backtracking order of the star).  A block consumes at least one
character, so `fuel = length` suffices. -/
def starRestsFuel : Nat → List Char → List (List Char)
  | 0, s => [s]
  | fuel + 1, s =>
    match takeBlock s with
    | none => [s]
    | some r => starRestsFuel fuel r ++ [s]

/-- All suffixes reachable by `(\w+\.)*` from `s`, greedy order. -/
def starRests (s : List Char) : List (List Char) :=
  starRestsFuel s.length s

/-- Match the configured domain (a `.` in it is the regex wildcard `.`,
every other character is literal) against a prefix of `s`; returns the
unconsumed suffix on success. -/
def domMatch : List Char → List Char → Option (List Char)
  | [], s => some s
  | _ :: _, [] => none
  | p :: ps, c :: cs => if p == '.' || p == c then domMatch ps cs else none

/-- Greedy choice for the subdomain star: the first suffix (most blocks
consumed first) at which the domain pattern matches. -/
def tryStar (pat : List Char) : List (List Char) → Option (List Char)
  | [] => none
  | r :: rs =>
    match domMatch pat r with
    | some rem => some rem
    | none => tryStar pat rs

/-- The suffixes following each `@` preceded by a nonempty username,
ordered by decreasing username length (the greedy order of `.+`). -/
def atRestsGo : List Char → Nat → List (List Char)
  | [], _ => []
  | c :: cs, i =>
    atRestsGo cs (i + 1) ++ (if c == '@' && decide (1 ≤ i) then [cs] else [])

/-- All candidate suffixes after the `@` separator, greedy order. -/
def atRests (l : List Char) : List (List Char) :=
  atRestsGo l 0

/-- Backtracking over username choices: the remainder left by the first
overall match of `.+@(\w+\.)*domain`, or `none` if no match exists. -/
def tryAts (pat : List Char) : List (List Char) → Option (List Char)
  | [] => none
  | r :: rs =>
    match tryStar pat (starRests r) with
    | some rem => some rem
    | none => tryAts pat rs

/-- `re.match(pattern, email)` followed by `match.group(0) == email`
(models.py:228-230) for one configured domain: the first match found must
consume the entire email. -/
def domainFullMatch (domain email : String) : Bool :=
  match tryAts domain.toList (atRests email.toList) with
  | some [] => true
  | _ => false

/-- Python `str.split(sep)` for a single-character separator
(`''.split(',') == ['']`). -/
def pythonSplit (sep : Char) : List Char → List (List Char)
  | [] => [[]]
  | c :: cs =>
    match pythonSplit sep cs with
    | [] => [[c]]
    | h :: t => if c == sep then [] :: h :: t else (c :: h) :: t

/-- `ConditionalOffer.is_email_valid` (models.py:194-233): `True` when
`email_domains` is unset or empty (Python falsiness), otherwise `True` iff
some comma-separated domain entry fully matches the email. -/
def is_email_valid (email_domains : Option String) (email : String) : Bool :=
  match email_domains with
  | none => true
  | some s =>
    if s.toList.isEmpty then true
    else (pythonSplit ',' s.toList).any
      (fun domain => domainFullMatch (String.mk domain) email)

/-! ### Range model, validation and membership (models.py:245-398) -/

/-- Decidable equality on `Except` results, for concrete evaluations. -/
instance instDecEqExcept {ε α : Type} [DecidableEq ε] [DecidableEq α] :
    DecidableEq (Except ε α) := fun x y =>
  match x, y with
  | Except.ok a, Except.ok b =>
    if h : a = b then isTrue (by rw [h])
    else isFalse (fun hh => by injection hh; contradiction)
  | Except.error a, Except.error b =>
    if h : a = b then isTrue (by rw [h])
    else isFalse (fun hh => by injection hh; contradiction)
  | Except.ok _, Except.error _ => isFalse (fun hh => by injection hh)
  | Except.error _, Except.ok _ => isFalse (fun hh => by injection hh)

/-- `ValidationError` raised by `log_message_and_raise_validation_error`. -/
structure ValidationError where
  message : String
deriving Repr, DecidableEq

/-- Modelled from the spec: `log_message_and_raise_validation_error`
(`ecommerce.core.utils`, not under `src/`) logs the message and raises a
`ValidationError` carrying it; embedded as returning the error value. -/
def log_message_and_raise_validation_error (msg : String) : Except ValidationError Unit :=
  Except.error ⟨msg⟩

/-- A static catalog: the products backed by its stock records
(`catalog.stock_records.values_list('product', flat=True)`). -/
structure Catalog where
  stock_record_products : List Nat
deriving Repr, DecidableEq

/-- The `Range` model fields used by `clean` and `contains_product`
(models.py:263-290).  `Option` encodes SQL NULL; Python truthiness of each
field is given by the `truthy*` helpers below. -/
structure Range where
  catalog : Option Catalog
  catalog_query : Option String
  course_catalog : Option Nat
  course_seat_types : Option String
  enterprise_customer : Option String
deriving Repr, DecidableEq

/-- Python truthiness of a nullable string field: `None` and the empty
string are falsy. -/
def truthyOptStr : Option String → Bool
  | none => false
  | some s => !s.toList.isEmpty

/-- Python truthiness of the nullable `course_catalog` positive-integer
field: `None` and `0` are falsy. -/
def truthyOptNat : Option Nat → Bool
  | none => false
  | some n => n != 0

/-- Python truthiness of the nullable `catalog` foreign key: a model
instance is truthy, `None` is falsy. -/
def truthyOptCatalog : Option Catalog → Bool
  | none => false
  | some _ => true

/-- `Range.ALLOWED_SEAT_TYPES` (models.py:270). -/
def ALLOWED_SEAT_TYPES : List String :=
  ["credit", "professional", "verified"]

/-- Error message of the catalog/dynamic-fields exclusivity check. -/
def msgCatalogDynamic : String :=
  "Failed to create Range. Catalog and dynamic catalog fields may not be set in the same range."

/-- Error message of the query/course-catalog/seat-types exclusivity checks. -/
def msgEitherOr : String :=
  "Failed to create Range. Either catalog_query or course_catalog must be given but not both and course_seat_types fields must be set."

/-- Error message of the credit-pairing check. -/
def msgCreditPaired : String :=
  "Failed to create Range. Credit seat type cannot be paired with other seat types."

/-- Error message of the allowed-seat-types subset check. -/
def msgNotAllowedSeat : String :=
  "Failed to create Range. Not allowed course seat types."

/-- `validate_credit_seat_type` (models.py:245-260): the comma-separated
seat-type list may not pair `credit` with another entry and must be a
subset of `ALLOWED_SEAT_TYPES`.  The dynamic parts of the Python error
messages are omitted. -/
def validate_credit_seat_type (course_seat_types : String) : Except ValidationError Unit :=
  if 1 < (pythonSplit ',' course_seat_types.toList).length &&
      (pythonSplit ',' course_seat_types.toList).contains (String.toList ("credit")) then
    log_message_and_raise_validation_error msgCreditPaired
  else if !((pythonSplit ',' course_seat_types.toList).all
      (fun t => (ALLOWED_SEAT_TYPES.map String.toList).contains t)) then
    log_message_and_raise_validation_error msgNotAllowedSeat
  else Except.ok ()

/-- `Range.clean` (models.py:296-314): the mutual-exclusivity checks, in
source order (each Python check raises, so the chain is sequential), then
seat-type validation when `course_seat_types` is truthy. -/
def Range.clean (r : Range) : Except ValidationError Unit :=
  if truthyOptCatalog r.catalog &&
      (truthyOptNat r.course_catalog || truthyOptStr r.catalog_query ||
        truthyOptStr r.course_seat_types) then
    log_message_and_raise_validation_error msgCatalogDynamic
  else if truthyOptStr r.catalog_query && truthyOptNat r.course_catalog then
    log_message_and_raise_validation_error msgEitherOr
  else if (truthyOptStr r.catalog_query || truthyOptNat r.course_catalog) &&
      !truthyOptStr r.course_seat_types then
    log_message_and_raise_validation_error msgEitherOr
  else if truthyOptStr r.course_seat_types &&
      !(truthyOptStr r.catalog_query || truthyOptNat r.course_catalog) then
    log_message_and_raise_validation_error msgEitherOr
  else if truthyOptStr r.course_seat_types then
    validate_credit_seat_type (Option.getD r.course_seat_types (""))
  else Except.ok ()

/-- Follows the spec's words (§3 Range invariant), to be compared with
`Range.clean`: exactly one of {`catalog` alone}, {`catalog_query` +
`course_seat_types`}, {`course_catalog` + `course_seat_types`}, {none set}
holds, and the seat types, when set, list only allowed types with `credit`,
when present, as the sole entry. -/
def specSeatTypesValid (s : String) : Bool :=
  (pythonSplit ',' s.toList).all
      (fun t => (ALLOWED_SEAT_TYPES.map String.toList).contains t) &&
    (!((pythonSplit ',' s.toList).contains (String.toList ("credit"))) ||
      pythonSplit ',' s.toList == [String.toList ("credit")])

/-- Follows the spec's words (§3): the Range mutual-exclusivity invariant. -/
def specRangeInvariant (r : Range) : Bool :=
  let cat := truthyOptCatalog r.catalog
  let q := truthyOptStr r.catalog_query
  let cc := truthyOptNat r.course_catalog
  let cst := truthyOptStr r.course_seat_types
  ((cat && !q && !cc && !cst) || (q && cst && !cat && !cc) ||
      (cc && cst && !cat && !q) || (!cat && !q && !cc && !cst)) &&
    (!cst || specSeatTypesValid (Option.getD r.course_seat_types ("")))

/-- A product as consumed by `Range.contains_product`: primary key, course
run id, and the `certificate_type` product attribute. -/
structure Product where
  id : Nat
  course_id : String
  certificate_type : String
deriving Repr, DecidableEq

/-- Response of the catalog-contains endpoint (spec §6): the `courses` map
from course id to membership boolean. -/
structure CatalogContainsResponse where
  courses : List (String × Bool)
deriving Repr, DecidableEq

/-- Response of the catalog-query contains endpoint (spec §6): the
`course_runs` map from course id to membership boolean. -/
structure QueryContainsResponse where
  course_runs : List (String × Bool)
deriving Repr, DecidableEq

/-- The transport-level failure of a remote catalog call: the exception
types named at models.py:366 (`ConnectionError`, `Timeout`,
`SlumberBaseException` for a bad HTTP response). -/
inductive TransportFailure
  | connectionError
  | timeout
  | badResponse
deriving Repr, DecidableEq

/-- The exceptions observable from `Range.contains_product`: a plain
`Exception` with its message, or a `KeyError` from indexing the response
map. -/
inductive PyError
  | exceptionMsg (msg : String)
  | keyError (key : String)
deriving Repr, DecidableEq

/-- `Range.catalog_contains_product` (models.py:343-369): return the cached
response when present (the response dict is truthy), otherwise call the
remote catalog-contains endpoint; on `ConnectionError`,
`SlumberBaseException` or `Timeout` raise a plain `Exception` with a fixed
message (the caught cause is discarded).  The cache write on success is not
modelled. -/
def catalog_contains_product (cached : Option CatalogContainsResponse)
    (remote : Except TransportFailure CatalogContainsResponse) :
    Except PyError CatalogContainsResponse :=
  match cached with
  | some response => Except.ok response
  | none =>
    match remote with
    | Except.ok response => Except.ok response
    | Except.error _ =>
      Except.error (PyError.exceptionMsg
        ("Unable to connect to Course Catalog service for catalog contains endpoint."))

/-- `Range.run_catalog_query` (models.py:316-341): same caching shape; the
bare `except:` turns any failure into a plain `Exception` with a fixed
message, discarding the cause. -/
def run_catalog_query (cached : Option QueryContainsResponse)
    (remote : Except TransportFailure QueryContainsResponse) :
    Except PyError QueryContainsResponse :=
  match cached with
  | some response => Except.ok response
  | none =>
    match remote with
    | Except.ok response => Except.ok response
    | Except.error _ =>
      Except.error (PyError.exceptionMsg ("Could not contact Course Catalog Service."))

/-- `str.lower()` on an ASCII string. -/
def strLower (s : String) : String :=
  String.mk (s.toList.map Char.toLower)

/-- Substring test on character lists (Python's `in` on strings). -/
def isSubstrList (needle : List Char) : List Char → Bool
  | [] => needle.isEmpty
  | c :: t => needle.isPrefixOf (c :: t) || isSubstrList needle t

/-- Python `needle in hay` for strings: substring containment. -/
def pyInStr (needle hay : String) : Bool :=
  isSubstrList needle.toList hay.toList

/-- `Range.contains_product` (models.py:371-396).  `superContains` is the
inherited oscar default membership check (an external collaborator); the
cached/remote parameters stand for the cache and the catalog API reached
through the request.  Note the seat-type gate is Python `in` on the raw
`course_seat_types` string (substring containment), and that when the gate
fails inside a dynamic branch the function falls through to the inherited
default check at line 396. -/
def Range.contains_product (r : Range) (p : Product) (superContains : Bool)
    (catalogCached : Option CatalogContainsResponse)
    (catalogRemote : Except TransportFailure CatalogContainsResponse)
    (queryCached : Option QueryContainsResponse)
    (queryRemote : Except TransportFailure QueryContainsResponse) :
    Except PyError Bool :=
  if truthyOptNat r.course_catalog && truthyOptStr r.course_seat_types then
    if pyInStr (strLower p.certificate_type) (Option.getD r.course_seat_types ("")) then
      match catalog_contains_product catalogCached catalogRemote with
      | Except.error e => Except.error e
      | Except.ok response =>
        match response.courses.lookup p.course_id with
        | some b => Except.ok (b || superContains)
        | none => Except.error (PyError.keyError p.course_id)
    else Except.ok superContains
  else if truthyOptStr r.catalog_query && truthyOptStr r.course_seat_types then
    if pyInStr (strLower p.certificate_type) (Option.getD r.course_seat_types ("")) then
      match run_catalog_query queryCached queryRemote with
      | Except.error e => Except.error e
      | Except.ok response =>
        match response.course_runs.lookup p.course_id with
        | some b => Except.ok (b || superContains)
        | none => Except.error (PyError.keyError p.course_id)
    else Except.ok superContains
  else if truthyOptCatalog r.catalog then
    Except.ok ((Option.getD r.catalog ⟨[]⟩).stock_record_products.contains p.id || superContains)
  else Except.ok superContains

/-- The claim-side helper: total units affected, i.e. the sum of
`quantity_affected` over an affected-lines sequence. -/
def sumQuantities (l : List (Line × Rat × Int)) : Int :=
  (l.map (fun t => t.2.2)).sum

/-- The claim-side helper: the sum of the per-line discounts recorded in an
affected-lines sequence. -/
def sumDiscounts (l : List (Line × Rat × Int)) : Rat :=
  (l.map (fun t => t.2.1)).sum

/-- Default affected-lines triple, used only as the `List.getD` fallback. -/
def defaultTriple : Line × Rat × Int :=
  (⟨0, 0, 0⟩, 0, 0)

/-- Default `(price, line)` pair, used only as the `List.getD` fallback. -/
def defaultPair : Rat × Line :=
  (0, ⟨0, 0, 0⟩)

/-! ## Theorems -/

theorem roundCurrency_zero : roundCurrency 0 = 0 := by
  simp [roundCurrency, ratTrunc]

theorem sumQuantities_nil : sumQuantities [] = 0 := rfl

theorem sumQuantities_cons (t : Line × Rat × Int) (l : List (Line × Rat × Int)) :
    sumQuantities (t :: l) = t.2.2 + sumQuantities l := by
  simp [sumQuantities]

theorem sumDiscounts_nil : sumDiscounts [] = 0 := rfl

theorem sumDiscounts_cons (t : Line × Rat × Int) (l : List (Line × Rat × Int)) :
    sumDiscounts (t :: l) = t.2.1 + sumDiscounts l := by
  simp [sumDiscounts]

/-- The loop's running `discount` accumulator always equals the sum of the
per-line discounts it records in `affected_lines`. -/
theorem applyLoop_discount_eq (dp : Rat) (mi : Int) :
    ∀ (lines : List (Rat × Line)) (budget : Option Rat) (aff : Int),
      (applyLoop dp mi lines budget aff).discount
        = sumDiscounts (applyLoop dp mi lines budget aff).affected_lines := by
  intro lines
  induction lines with
  | nil => intro budget aff; simp [applyLoop, sumDiscounts]
  | cons hd tl ih =>
    intro budget aff
    obtain ⟨price, line⟩ := hd
    by_cases h1 : mi ≤ aff
    · simp [applyLoop, h1, sumDiscounts]
    · by_cases h2 : budget = some 0
      · simp [applyLoop, h1, h2, sumDiscounts]
      · simp only [applyLoop, if_neg h1, if_neg h2, sumDiscounts_cons]
        rw [ih]

/-- The loop never pushes the `affected_items` counter past
`max_affected_items`: starting at `aff ≤ mi`, the units it affects fit in
the remaining headroom. -/
theorem applyLoop_qty_le (dp : Rat) (mi : Int) :
    ∀ (lines : List (Rat × Line)) (budget : Option Rat) (aff : Int), aff ≤ mi →
      aff + sumQuantities (applyLoop dp mi lines budget aff).affected_lines ≤ mi := by
  intro lines
  induction lines with
  | nil => intro budget aff h; simpa [applyLoop, sumQuantities] using h
  | cons hd tl ih =>
    intro budget aff h
    obtain ⟨price, line⟩ := hd
    have hqa : min line.quantity_without_discount (mi - aff) ≤ mi - aff :=
      min_le_right _ _
    by_cases h1 : mi ≤ aff
    · simpa [applyLoop, h1, sumQuantities] using h
    · rcases budget with _ | b
      · simp only [applyLoop, if_neg h1]
        rw [if_neg (by simp : ¬ (none : Option Rat) = some 0)]
        dsimp only
        rw [sumQuantities_cons]
        dsimp only
        have hrec := ih none (aff + min line.quantity_without_discount (mi - aff))
          (by omega)
        omega
      · by_cases h2 : b = 0
        · simpa [applyLoop, h1, h2, sumQuantities] using h
        · simp only [applyLoop, if_neg h1]
          rw [if_neg (by simp [h2] : ¬ (some b : Option Rat) = some 0)]
          dsimp only
          rw [sumQuantities_cons]
          dsimp only
          have hrec := ih
            (some (b - min (roundCurrency (dp / 100 * price *
              ((min line.quantity_without_discount (mi - aff) : Int) : Rat))) b))
            (aff + min line.quantity_without_discount (mi - aff))
            (by omega)
          omega

/-- With a nonnegative remaining budget the loop's total discount never
exceeds that budget (each line discount is clamped to what remains). -/
theorem applyLoop_budget_le (dp : Rat) (mi : Int) :
    ∀ (lines : List (Rat × Line)) (m : Rat) (aff : Int), 0 ≤ m →
      (applyLoop dp mi lines (some m) aff).discount ≤ m := by
  intro lines
  induction lines with
  | nil => intro m aff hm; simpa [applyLoop] using hm
  | cons hd tl ih =>
    intro m aff hm
    obtain ⟨price, line⟩ := hd
    by_cases h1 : mi ≤ aff
    · simpa [applyLoop, h1] using hm
    · by_cases h2 : m = 0
      · simpa [applyLoop, h1, h2] using hm
      · simp only [applyLoop, if_neg h1]
        rw [if_neg (by simp [h2] : ¬ (some m : Option Rat) = some 0)]
        dsimp only
        have hmin : min (roundCurrency (dp / 100 * price *
            ((min line.quantity_without_discount (mi - aff) : Int) : Rat))) m ≤ m :=
          min_le_right _ _
        have hrec := ih
          (m - min (roundCurrency (dp / 100 * price *
            ((min line.quantity_without_discount (mi - aff) : Int) : Rat))) m)
          (aff + min line.quantity_without_discount (mi - aff))
          (by linarith)
        linarith

/-- With a resolved percentage of `0` and a nonnegative (or absent) budget,
every line discount computed by the loop is `0` and so is the total. -/
theorem applyLoop_zero_percent (mi : Int) :
    ∀ (lines : List (Rat × Line)) (budget : Option Rat) (aff : Int),
      (∀ m, budget = some m → 0 ≤ m) →
      (applyLoop 0 mi lines budget aff).discount = 0 ∧
      ∀ t ∈ (applyLoop 0 mi lines budget aff).affected_lines, t.2.1 = 0 := by
  intro lines
  induction lines with
  | nil => intro budget aff hb; simp [applyLoop]
  | cons hd tl ih =>
    intro budget aff hb
    obtain ⟨price, line⟩ := hd
    by_cases h1 : mi ≤ aff
    · simp [applyLoop, h1]
    · rcases budget with _ | b
      · simp only [applyLoop, if_neg h1]
        rw [if_neg (by simp : ¬ (none : Option Rat) = some 0)]
        dsimp only
        have hzero : roundCurrency ((0 : Rat) / 100 * price *
            ((min line.quantity_without_discount (mi - aff) : Int) : Rat)) = 0 := by
          simp [roundCurrency_zero]
        rw [hzero]
        have hrec := ih none (aff + min line.quantity_without_discount (mi - aff))
          (by intro m hm; cases hm)
        refine ⟨by rw [hrec.1]; ring, ?_⟩
        intro t ht
        rcases List.mem_cons.mp ht with h | h
        · rw [h]
        · exact hrec.2 t h
      · have hb0 : 0 ≤ b := hb b rfl
        by_cases h2 : b = 0
        · simp [applyLoop, h1, h2]
        · simp only [applyLoop, if_neg h1]
          rw [if_neg (by simp [h2] : ¬ (some b : Option Rat) = some 0)]
          dsimp only
          have hzero : roundCurrency ((0 : Rat) / 100 * price *
              ((min line.quantity_without_discount (mi - aff) : Int) : Rat)) = 0 := by
            simp [roundCurrency_zero]
          rw [hzero]
          have hminb : min (0 : Rat) b = 0 := min_eq_left hb0
          rw [hminb]
          have hrec := ih (some (b - 0))
            (aff + min line.quantity_without_discount (mi - aff))
            (by intro m hm; injection hm with hm; rw [← hm]; linarith)
          refine ⟨by rw [hrec.1]; ring, ?_⟩
          intro t ht
          rcases List.mem_cons.mp ht with h | h
          · rw [h]
          · exact hrec.2 t h

/-- Shape of one loop iteration: either the loop stopped at this line (no
triple recorded), or the head triple records this line mutated by
`line_discount_record` with its `line_discount` and `quantity_affected`, and
the tail is a recursive loop over the remaining lines. -/
theorem applyLoop_affected_shape (dp : Rat) (mi : Int) (price : Rat) (line : Line)
    (tl : List (Rat × Line)) (budget : Option Rat) (aff : Int) :
    (applyLoop dp mi ((price, line) :: tl) budget aff).affected_lines = [] ∨
    ∃ ld budget',
      (applyLoop dp mi ((price, line) :: tl) budget aff).affected_lines
        = (line_discount_record line ld (min line.quantity_without_discount (mi - aff)), ld,
            min line.quantity_without_discount (mi - aff))
          :: (applyLoop dp mi tl budget'
              (aff + min line.quantity_without_discount (mi - aff))).affected_lines := by
  by_cases h1 : mi ≤ aff
  · left; simp [applyLoop, h1]
  · rcases budget with _ | b
    · right
      refine ⟨roundCurrency (dp / 100 * price *
        ((min line.quantity_without_discount (mi - aff) : Int) : Rat)), none, ?_⟩
      simp only [applyLoop, if_neg h1]
      rw [if_neg (by simp : ¬ (none : Option Rat) = some 0)]
    · by_cases h2 : b = 0
      · left; simp [applyLoop, h1, h2]
      · right
        refine ⟨min (roundCurrency (dp / 100 * price *
            ((min line.quantity_without_discount (mi - aff) : Int) : Rat))) b,
          some (b - min (roundCurrency (dp / 100 * price *
            ((min line.quantity_without_discount (mi - aff) : Int) : Rat))) b), ?_⟩
        simp only [applyLoop, if_neg h1]
        rw [if_neg (by simp [h2] : ¬ (some b : Option Rat) = some 0)]

/-- The `i`-th affected-lines triple corresponds to the `i`-th input line:
the recorded line is that input line with `quantity_without_discount`
reduced by exactly the recorded `quantity_affected`, `discount_total`
increased by exactly the recorded `line_discount`, and nothing else (the
line id) changed. -/
theorem applyLoop_affected_get (dp : Rat) (mi : Int) :
    ∀ (lines : List (Rat × Line)) (budget : Option Rat) (aff : Int) (i : Nat),
      i < (applyLoop dp mi lines budget aff).affected_lines.length →
      i < lines.length ∧
      (((applyLoop dp mi lines budget aff).affected_lines.getD i
            defaultTriple).1.quantity_without_discount
          = (lines.getD i defaultPair).2.quantity_without_discount
            - ((applyLoop dp mi lines budget aff).affected_lines.getD i defaultTriple).2.2) ∧
      (((applyLoop dp mi lines budget aff).affected_lines.getD i defaultTriple).1.discount_total
          = (lines.getD i defaultPair).2.discount_total
            + ((applyLoop dp mi lines budget aff).affected_lines.getD i defaultTriple).2.1) ∧
      ((applyLoop dp mi lines budget aff).affected_lines.getD i defaultTriple).1.id
          = (lines.getD i defaultPair).2.id := by
  intro lines
  induction lines with
  | nil => intro budget aff i h; simp [applyLoop] at h
  | cons hd tl ih =>
    intro budget aff i h
    obtain ⟨price, line⟩ := hd
    rcases applyLoop_affected_shape dp mi price line tl budget aff with hsh | ⟨ld, budget', hsh⟩
    · rw [hsh] at h; simp at h
    · rw [hsh] at h ⊢
      cases i with
      | zero =>
        simp [line_discount_record, defaultTriple, defaultPair]
      | succ n =>
        simp only [List.getD_cons_succ, List.length_cons] at h ⊢
        have hrec := ih budget' (aff + min line.quantity_without_discount (mi - aff)) n
          (by omega)
        exact ⟨by omega, hrec.2⟩

/-- C1 (amended): for every call to
`EnterpriseCustomerUserPercentageBenefit.apply` — any percent, any ordered
list of lines, any effective `max_affected_items`, any `max_total_discount`
— the total units affected (sum of `quantity_affected` over the
affected-lines sequence) never exceed the effective `max_affected_items`;
and when `max_total_discount` is not `None` **and is nonnegative**, the
returned total discount never exceeds `max_total_discount`.  (A negative
cap can be exceeded: see the counterexample.) -/
theorem apply_units_and_budget_caps (linked : Bool) (value : Rat)
    (discount_percent max_total_discount : Option Rat) (max_affected_items : Nat)
    (line_tuples : List (Rat × Line)) :
    sumQuantities (EnterpriseBenefit.apply linked value discount_percent max_total_discount
        max_affected_items line_tuples).affected_lines ≤ (max_affected_items : Int) ∧
    (∀ m : Rat, max_total_discount = some m → 0 ≤ m →
      (EnterpriseBenefit.apply linked value discount_percent max_total_discount
          max_affected_items line_tuples).discount ≤ m) := by
  cases linked with
  | false =>
    constructor
    · simp [EnterpriseBenefit.apply, sumQuantities]
    · intro m hm h0
      simpa [EnterpriseBenefit.apply] using h0
  | true =>
    constructor
    · have hq := applyLoop_qty_le (min (Option.getD discount_percent value) 100)
        (max_affected_items : Int) line_tuples max_total_discount 0
        (Int.natCast_nonneg max_affected_items)
      simpa [EnterpriseBenefit.apply] using hq
    · intro m hm h0
      subst hm
      have hb := applyLoop_budget_le (min (Option.getD discount_percent value) 100)
        (max_affected_items : Int) line_tuples m 0 h0
      simpa [EnterpriseBenefit.apply] using hb

/-- Witness for C1 at a concrete call. -/
theorem apply_units_and_budget_caps_witness :
    sumQuantities (EnterpriseBenefit.apply true 50 none (some 5) 10
        [((10 : Rat), ⟨1, 3, 0⟩)]).affected_lines ≤ (10 : Int) ∧
    (EnterpriseBenefit.apply true 50 none (some 5) 10
        [((10 : Rat), ⟨1, 3, 0⟩)]).discount ≤ 5 :=
  ⟨(apply_units_and_budget_caps true 50 none (some 5) 10 [((10 : Rat), ⟨1, 3, 0⟩)]).1,
   (apply_units_and_budget_caps true 50 none (some 5) 10 [((10 : Rat), ⟨1, 3, 0⟩)]).2
     5 rfl (by norm_num)⟩

/-- C1 counterexample: with `max_total_discount = -1` (a decimal) and no
applicable lines, `apply` returns a total discount of `0`, which exceeds
`max_total_discount`. -/
theorem apply_negative_budget_cex :
    ¬ ((EnterpriseBenefit.apply true 50 none (some (-1)) 10000 []).discount ≤ -1) := by
  simp [EnterpriseBenefit.apply, applyLoop]

/-- C2 (confirmed): for every percent in `[0, 100]` and lines with
nonnegative `quantity_without_discount`, the total discount returned by
`apply` equals exactly the sum of the per-line discounts recorded in the
affected-lines sequence — each line's discount is rounded (and clamped)
before being accumulated, so the total is a sum of rounded amounts. -/
theorem apply_total_is_sum_of_recorded (linked : Bool) (value : Rat)
    (discount_percent max_total_discount : Option Rat) (max_affected_items : Nat)
    (line_tuples : List (Rat × Line))
    (hp0 : 0 ≤ Option.getD discount_percent value)
    (hp1 : Option.getD discount_percent value ≤ 100)
    (hq : ∀ t ∈ line_tuples, 0 ≤ t.2.quantity_without_discount) :
    (EnterpriseBenefit.apply linked value discount_percent max_total_discount
        max_affected_items line_tuples).discount
      = sumDiscounts (EnterpriseBenefit.apply linked value discount_percent max_total_discount
          max_affected_items line_tuples).affected_lines := by
  cases linked with
  | false => simp [EnterpriseBenefit.apply, sumDiscounts]
  | true =>
    have hsum := applyLoop_discount_eq (min (Option.getD discount_percent value) 100)
      (max_affected_items : Int) line_tuples max_total_discount 0
    simpa [EnterpriseBenefit.apply] using hsum

/-- Witness for C2 at a concrete call. -/
theorem apply_total_is_sum_of_recorded_witness :
    (0 : Rat) ≤ Option.getD none (50 : Rat) ∧ Option.getD none (50 : Rat) ≤ 100 ∧
    (∀ t ∈ [((10 : Rat), (⟨1, 3, 0⟩ : Line))], 0 ≤ t.2.quantity_without_discount) ∧
    (EnterpriseBenefit.apply true 50 none none 10 [((10 : Rat), ⟨1, 3, 0⟩)]).discount
      = sumDiscounts (EnterpriseBenefit.apply true 50 none none 10
          [((10 : Rat), ⟨1, 3, 0⟩)]).affected_lines :=
  ⟨by norm_num, by norm_num, by decide,
   apply_total_is_sum_of_recorded true 50 none none 10 [((10 : Rat), ⟨1, 3, 0⟩)]
     (by norm_num) (by norm_num) (by decide)⟩

/-- C3 (code bug): `is_user_linked_to_enterprise_customer` returns the
enterprise feature-flag value for every `(uuid, user)` pair — it never
consults enterprise membership, contradicting its own docstring.  When the
check is `false`, `apply` does return a zero discount without touching any
line and without consuming the condition. -/
theorem is_user_linked_ignores_membership :
    (∀ (switch_active : Bool) (uuid user : String),
      is_user_linked_to_enterprise_customer switch_active uuid user = switch_active) ∧
    (∀ (uuid user : String) (value : Rat) (discount_percent max_total_discount : Option Rat)
        (max_affected_items : Nat) (line_tuples : List (Rat × Line)),
      EnterpriseBenefit.apply (is_user_linked_to_enterprise_customer false uuid user)
          value discount_percent max_total_discount max_affected_items line_tuples
        = ⟨0, [], line_tuples.map (fun t => t.2), false⟩) := by
  constructor
  · intro switch_active uuid user
    cases switch_active <;> rfl
  · intro uuid user value dp mtd mi lines
    simp [EnterpriseBenefit.apply, is_user_linked_to_enterprise_customer,
      is_enterprise_feature_enabled]

/-- C4 (code bug): the email-domain matcher's evaluations at the claim's
inputs.  With `email_domains = "sub.example.com"` the code **accepts**
`a@other.sub.example.com` (the regex `(\w+\.)*` admits extra subdomain
labels before the configured domain), although the claim, the spec and the
function's own docstring require a domain entry that already encodes a
subdomain to be matched exactly. -/
theorem is_email_valid_evaluations :
    is_email_valid (some ("example.com")) ("a@example.com") = true ∧
    is_email_valid (some ("example.com")) ("a@sub.example.com") = true ∧
    is_email_valid (some ("sub.example.com")) ("a@sub.example.com") = true ∧
    is_email_valid (some ("sub.example.com")) ("a@example.com") = false ∧
    is_email_valid (some ("sub.example.com")) ("a@other.sub.example.com") = true := by
  decide

/-- C8 (confirmed, modelled from the spec for the oscar line collaborator):
each triple in `apply`'s affected-lines sequence records its input line
mutated by exactly its recorded `quantity_affected` (subtracted from
`quantity_without_discount`) and exactly its recorded `line_discount`
(added to the line's discount amount); the line id is unchanged. -/
theorem apply_mutation_per_affected_line (linked : Bool) (value : Rat)
    (discount_percent max_total_discount : Option Rat) (max_affected_items : Nat)
    (line_tuples : List (Rat × Line)) (i : Nat)
    (h : i < (EnterpriseBenefit.apply linked value discount_percent max_total_discount
        max_affected_items line_tuples).affected_lines.length) :
    i < line_tuples.length ∧
    (((EnterpriseBenefit.apply linked value discount_percent max_total_discount
          max_affected_items line_tuples).affected_lines.getD i
            defaultTriple).1.quantity_without_discount
        = (line_tuples.getD i defaultPair).2.quantity_without_discount
          - ((EnterpriseBenefit.apply linked value discount_percent max_total_discount
              max_affected_items line_tuples).affected_lines.getD i defaultTriple).2.2) ∧
    (((EnterpriseBenefit.apply linked value discount_percent max_total_discount
          max_affected_items line_tuples).affected_lines.getD i defaultTriple).1.discount_total
        = (line_tuples.getD i defaultPair).2.discount_total
          + ((EnterpriseBenefit.apply linked value discount_percent max_total_discount
              max_affected_items line_tuples).affected_lines.getD i defaultTriple).2.1) ∧
    ((EnterpriseBenefit.apply linked value discount_percent max_total_discount
        max_affected_items line_tuples).affected_lines.getD i defaultTriple).1.id
        = (line_tuples.getD i defaultPair).2.id := by
  cases linked with
  | false => simp [EnterpriseBenefit.apply] at h
  | true =>
    have hget := applyLoop_affected_get (min (Option.getD discount_percent value) 100)
      (max_affected_items : Int) line_tuples max_total_discount 0 i
      (by simpa [EnterpriseBenefit.apply] using h)
    simpa [EnterpriseBenefit.apply] using hget

/-- Witness for C8 at a concrete call (one affected line, index `0`). -/
theorem apply_mutation_per_affected_line_witness :
    0 < (EnterpriseBenefit.apply true 50 none none 10
        [((10 : Rat), ⟨5, 2, 0⟩)]).affected_lines.length ∧
    (0 < ([((10 : Rat), (⟨5, 2, 0⟩ : Line))]).length ∧
      (((EnterpriseBenefit.apply true 50 none none 10
            [((10 : Rat), ⟨5, 2, 0⟩)]).affected_lines.getD 0
              defaultTriple).1.quantity_without_discount
          = (([((10 : Rat), (⟨5, 2, 0⟩ : Line))]).getD 0
                defaultPair).2.quantity_without_discount
            - ((EnterpriseBenefit.apply true 50 none none 10
                [((10 : Rat), ⟨5, 2, 0⟩)]).affected_lines.getD 0 defaultTriple).2.2) ∧
      (((EnterpriseBenefit.apply true 50 none none 10
            [((10 : Rat), ⟨5, 2, 0⟩)]).affected_lines.getD 0 defaultTriple).1.discount_total
          = (([((10 : Rat), (⟨5, 2, 0⟩ : Line))]).getD 0 defaultPair).2.discount_total
            + ((EnterpriseBenefit.apply true 50 none none 10
                [((10 : Rat), ⟨5, 2, 0⟩)]).affected_lines.getD 0 defaultTriple).2.1) ∧
      ((EnterpriseBenefit.apply true 50 none none 10
          [((10 : Rat), ⟨5, 2, 0⟩)]).affected_lines.getD 0 defaultTriple).1.id
          = (([((10 : Rat), (⟨5, 2, 0⟩ : Line))]).getD 0 defaultPair).2.id) :=
  ⟨by simp [EnterpriseBenefit.apply, applyLoop],
   apply_mutation_per_affected_line true 50 none none 10 [((10 : Rat), ⟨5, 2, 0⟩)] 0
     (by simp [EnterpriseBenefit.apply, applyLoop])⟩

/-- C9 (amended): with zero eligible lines `apply` yields exactly a zero
discount, empty affected lines, no line state and no condition consumption;
with a resolved percent of `0` (and a budget that is absent or nonnegative)
it yields a zero total discount and does not consume the condition, **but**
every examined line is still appended to the affected-lines sequence (with a
zero per-line discount) and is still mutated. -/
theorem apply_zero_lines_or_zero_percent (linked : Bool) (value : Rat)
    (discount_percent max_total_discount : Option Rat) (max_affected_items : Nat)
    (line_tuples : List (Rat × Line)) :
    (line_tuples = [] →
      EnterpriseBenefit.apply linked value discount_percent max_total_discount
          max_affected_items line_tuples = ⟨0, [], [], false⟩) ∧
    (Option.getD discount_percent value = 0 →
      (∀ m, max_total_discount = some m → 0 ≤ m) →
      (EnterpriseBenefit.apply linked value discount_percent max_total_discount
          max_affected_items line_tuples).discount = 0 ∧
      (EnterpriseBenefit.apply linked value discount_percent max_total_discount
          max_affected_items line_tuples).consumed = false ∧
      ∀ t ∈ (EnterpriseBenefit.apply linked value discount_percent max_total_discount
          max_affected_items line_tuples).affected_lines, t.2.1 = 0) := by
  constructor
  · intro hl
    subst hl
    cases linked <;> simp [EnterpriseBenefit.apply, applyLoop, lt_irrefl]
  · intro hdp hb
    have hclamp : min (Option.getD discount_percent value) 100 = (0 : Rat) := by
      rw [hdp]; exact min_eq_left (by norm_num)
    cases linked with
    | false => simp [EnterpriseBenefit.apply, lt_irrefl]
    | true =>
      have hz := applyLoop_zero_percent (max_affected_items : Int) line_tuples
        max_total_discount 0 hb
      refine ⟨?_, ?_, ?_⟩
      · simpa [EnterpriseBenefit.apply, hclamp] using hz.1
      · simp [EnterpriseBenefit.apply, hclamp, hz.1, lt_irrefl]
      · simpa [EnterpriseBenefit.apply, hclamp] using hz.2

/-- Witness for C9 at a concrete call (both parts instantiated). -/
theorem apply_zero_lines_or_zero_percent_witness :
    (EnterpriseBenefit.apply true 50 none none 5 ([] : List (Rat × Line))
        = ⟨0, [], [], false⟩) ∧
    ((EnterpriseBenefit.apply true 0 none none 5 [((10 : Rat), ⟨1, 1, 0⟩)]).discount = 0 ∧
      (EnterpriseBenefit.apply true 0 none none 5 [((10 : Rat), ⟨1, 1, 0⟩)]).consumed = false ∧
      ∀ t ∈ (EnterpriseBenefit.apply true 0 none none 5
          [((10 : Rat), ⟨1, 1, 0⟩)]).affected_lines, t.2.1 = 0) :=
  ⟨(apply_zero_lines_or_zero_percent true 50 none none 5 []).1 rfl,
   (apply_zero_lines_or_zero_percent true 0 none none 5 [((10 : Rat), ⟨1, 1, 0⟩)]).2 rfl
     (fun m hm => by cases hm)⟩

/-- C9 counterexample: with `percent = 0` and one eligible line, `apply`
returns a **nonempty** affected-lines sequence and the line **is** mutated
(its `quantity_without_discount` drops from `1` to `0`). -/
theorem apply_zero_percent_mutates_cex :
    (EnterpriseBenefit.apply true 0 none none 10000
        [((10 : Rat), ⟨1, 1, 0⟩)]).affected_lines ≠ [] ∧
    (EnterpriseBenefit.apply true 0 none none 10000
        [((10 : Rat), ⟨1, 1, 0⟩)]).lines_after ≠ [⟨1, 1, 0⟩] := by
  constructor <;>
    simp [EnterpriseBenefit.apply, applyLoop, roundCurrency, ratTrunc, line_discount_record]

/-- `log_message_and_raise_validation_error` always produces an error. -/
theorem log_raise_is_error (msg : String) :
    ∃ e, log_message_and_raise_validation_error msg = Except.error e :=
  ⟨⟨msg⟩, rfl⟩

/-- A seat-type string that satisfies the spec's §3 constraints passes
`validate_credit_seat_type`. -/
theorem validate_of_specSeatTypesValid (s : String) (h : specSeatTypesValid s = true) :
    validate_credit_seat_type s = Except.ok () := by
  unfold specSeatTypesValid at h
  unfold validate_credit_seat_type
  simp only [Bool.and_eq_true, Bool.or_eq_true, Bool.not_eq_true'] at h
  obtain ⟨hall, hcr⟩ := h
  have h2 : (!((pythonSplit ',' s.toList).all
      (fun t => (ALLOWED_SEAT_TYPES.map String.toList).contains t))) = false := by
    rw [hall]; rfl
  rcases hcr with hnc | heq
  · have h1 : (1 < (pythonSplit ',' s.toList).length &&
        (pythonSplit ',' s.toList).contains (String.toList ("credit"))) = false := by
      rw [hnc, Bool.and_false]
    rw [if_neg (by rw [h1]; exact Bool.false_ne_true),
      if_neg (by rw [h2]; exact Bool.false_ne_true)]
  · rw [beq_iff_eq] at heq
    have h1 : (1 < (pythonSplit ',' s.toList).length &&
        (pythonSplit ',' s.toList).contains (String.toList ("credit"))) = false := by
      rw [heq]; rfl
    rw [if_neg (by rw [h1]; exact Bool.false_ne_true),
      if_neg (by rw [h2]; exact Bool.false_ne_true)]

/-- C5 (amended): in either remote-lookup mode, when the product passes the
seat-type gate, the remote call fails and no cached value exists,
`contains_product` raises — it never returns `false` — but what it raises is
a plain generic `Exception` with a fixed message, not a distinguishable
error type carrying the transport cause. -/
theorem contains_product_remote_failure (r : Range) (p : Product) (superContains : Bool)
    (cause : TransportFailure)
    (catalogCached : Option CatalogContainsResponse)
    (catalogRemote : Except TransportFailure CatalogContainsResponse)
    (queryCached : Option QueryContainsResponse)
    (queryRemote : Except TransportFailure QueryContainsResponse) :
    (truthyOptNat r.course_catalog = true → truthyOptStr r.course_seat_types = true →
      pyInStr (strLower p.certificate_type) (Option.getD r.course_seat_types ("")) = true →
      Range.contains_product r p superContains none (Except.error cause)
          queryCached queryRemote
        = Except.error (PyError.exceptionMsg
            ("Unable to connect to Course Catalog service for catalog contains endpoint."))) ∧
    (truthyOptNat r.course_catalog = false → truthyOptStr r.catalog_query = true →
      truthyOptStr r.course_seat_types = true →
      pyInStr (strLower p.certificate_type) (Option.getD r.course_seat_types ("")) = true →
      Range.contains_product r p superContains catalogCached catalogRemote none
          (Except.error cause)
        = Except.error (PyError.exceptionMsg ("Could not contact Course Catalog Service."))) := by
  constructor
  · intro hcc hcst hgate
    simp [Range.contains_product, hcc, hcst, hgate, catalog_contains_product]
  · intro hcc hq hcst hgate
    simp [Range.contains_product, hcc, hq, hcst, hgate, run_catalog_query]

/-- Witness for C5: a timed-out lookup with an empty cache, in each mode. -/
theorem contains_product_remote_failure_witness :
    Range.contains_product ⟨none, none, some 1, some ("credit"), none⟩
        ⟨7, "c1", "credit"⟩ false none (Except.error TransportFailure.timeout)
        none (Except.error TransportFailure.timeout)
      = Except.error (PyError.exceptionMsg
          ("Unable to connect to Course Catalog service for catalog contains endpoint.")) ∧
    Range.contains_product ⟨none, some ("q"), none, some ("credit"), none⟩
        ⟨7, "c1", "credit"⟩ false none (Except.error TransportFailure.timeout)
        none (Except.error TransportFailure.timeout)
      = Except.error (PyError.exceptionMsg ("Could not contact Course Catalog Service.")) :=
  ⟨(contains_product_remote_failure ⟨none, none, some 1, some ("credit"), none⟩
      ⟨7, "c1", "credit"⟩ false TransportFailure.timeout none
      (Except.error TransportFailure.timeout) none
      (Except.error TransportFailure.timeout)).1 (by decide) (by decide) (by decide),
   (contains_product_remote_failure ⟨none, some ("q"), none, some ("credit"), none⟩
      ⟨7, "c1", "credit"⟩ false TransportFailure.timeout none
      (Except.error TransportFailure.timeout) none
      (Except.error TransportFailure.timeout)).2 (by decide) (by decide) (by decide)
      (by decide)⟩

/-- C5 counterexample: a timeout and a connection error produce the **same**
error value — a plain `Exception` with a fixed message — so the raised error
is not a distinguishable `ExternalServiceError` carrying the underlying
transport cause. -/
theorem remote_failure_cause_discarded_cex :
    catalog_contains_product none (Except.error TransportFailure.timeout)
        = catalog_contains_product none (Except.error TransportFailure.connectionError) ∧
    catalog_contains_product none (Except.error TransportFailure.timeout)
        = Except.error (PyError.exceptionMsg
            ("Unable to connect to Course Catalog service for catalog contains endpoint.")) ∧
    run_catalog_query none (Except.error TransportFailure.timeout)
        = run_catalog_query none (Except.error TransportFailure.badResponse) ∧
    run_catalog_query none (Except.error TransportFailure.timeout)
        = Except.error (PyError.exceptionMsg ("Could not contact Course Catalog Service.")) := by
  decide

/-- C6 (confirmed): `Range.clean` fails with a `ValidationError` whenever
both `catalog` and `course_catalog` are set, whenever only `catalog_query`
is set (no seat types), and for every Range whose `course_seat_types` is
`"credit,verified"`; and every Range satisfying the §3 mutual-exclusivity
invariant passes validation (the embedding is a pure function of the Range,
so validation neither modifies the Range nor carries state between calls).
-/
theorem range_clean_claims :
    (∀ r : Range, truthyOptCatalog r.catalog = true → truthyOptNat r.course_catalog = true →
      ∃ e, Range.clean r = Except.error e) ∧
    (∀ r : Range, truthyOptStr r.catalog_query = true → truthyOptCatalog r.catalog = false →
      truthyOptNat r.course_catalog = false → truthyOptStr r.course_seat_types = false →
      ∃ e, Range.clean r = Except.error e) ∧
    (∀ r : Range, r.course_seat_types = some ("credit,verified") →
      ∃ e, Range.clean r = Except.error e) ∧
    (∀ r : Range, specRangeInvariant r = true → Range.clean r = Except.ok ()) := by
  refine ⟨?_, ?_, ?_, ?_⟩
  · intro r hcat hcc
    have hx : Range.clean r = log_message_and_raise_validation_error msgCatalogDynamic := by
      unfold Range.clean
      rw [if_pos (by simp [hcat, hcc])]
    rw [hx]
    exact log_raise_is_error _
  · intro r hq hcat hcc hcst
    have hx : Range.clean r = log_message_and_raise_validation_error msgEitherOr := by
      unfold Range.clean
      rw [if_neg (by simp [hcat]), if_neg (by simp [hcc]), if_pos (by simp [hq, hcst])]
    rw [hx]
    exact log_raise_is_error _
  · intro r hcst
    have htr : truthyOptStr r.course_seat_types = true := by rw [hcst]; decide
    have hval : validate_credit_seat_type ("credit,verified")
        = Except.error ⟨msgCreditPaired⟩ := by decide
    cases hcat : truthyOptCatalog r.catalog with
    | true =>
      have hx : Range.clean r = log_message_and_raise_validation_error msgCatalogDynamic := by
        unfold Range.clean
        rw [if_pos (by simp [hcat, htr])]
      rw [hx]
      exact log_raise_is_error _
    | false =>
      cases hq : truthyOptStr r.catalog_query with
      | true =>
        cases hcc : truthyOptNat r.course_catalog with
        | true =>
          have hx : Range.clean r = log_message_and_raise_validation_error msgEitherOr := by
            unfold Range.clean
            rw [if_neg (by simp [hcat]), if_pos (by simp [hq, hcc])]
          rw [hx]
          exact log_raise_is_error _
        | false =>
          have hx : Range.clean r = Except.error ⟨msgCreditPaired⟩ := by
            unfold Range.clean
            rw [if_neg (by simp [hcat]), if_neg (by simp [hcc]),
              if_neg (by simp [htr]), if_neg (by simp [hq]), if_pos (by simp [htr]),
              hcst]
            exact hval
          exact ⟨_, hx⟩
      | false =>
        cases hcc : truthyOptNat r.course_catalog with
        | true =>
          have hx : Range.clean r = Except.error ⟨msgCreditPaired⟩ := by
            unfold Range.clean
            rw [if_neg (by simp [hcat]), if_neg (by simp [hq]),
              if_neg (by simp [htr]), if_neg (by simp [hcc]), if_pos (by simp [htr]),
              hcst]
            exact hval
          exact ⟨_, hx⟩
        | false =>
          have hx : Range.clean r = log_message_and_raise_validation_error msgEitherOr := by
            unfold Range.clean
            rw [if_neg (by simp [hcat]), if_neg (by simp [hq]),
              if_neg (by simp [hq, hcc]), if_pos (by simp [htr, hq, hcc])]
          rw [hx]
          exact log_raise_is_error _
  · intro r hinv
    unfold specRangeInvariant at hinv
    simp only [Bool.and_eq_true, Bool.or_eq_true, Bool.not_eq_true'] at hinv
    obtain ⟨hmode, hseat⟩ := hinv
    rcases hmode with ((⟨⟨⟨hcat, hq⟩, hcc⟩, hcst⟩ | ⟨⟨⟨hq, hcst⟩, hcat⟩, hcc⟩) |
        ⟨⟨⟨hcc, hcst⟩, hcat⟩, hq⟩) | ⟨⟨⟨hcat, hq⟩, hcc⟩, hcst⟩
    · unfold Range.clean
      rw [if_neg (by simp [hq, hcc, hcst]), if_neg (by simp [hcc]),
        if_neg (by simp [hq, hcc]), if_neg (by simp [hcst]), if_neg (by simp [hcst])]
    · have hsv : specSeatTypesValid (Option.getD r.course_seat_types ("")) = true := by
        rcases hseat with h | h
        · simp [h] at hcst
        · exact h
      unfold Range.clean
      rw [if_neg (by simp [hcat]), if_neg (by simp [hcc]), if_neg (by simp [hcst]),
        if_neg (by simp [hq]), if_pos (by simp [hcst])]
      exact validate_of_specSeatTypesValid _ hsv
    · have hsv : specSeatTypesValid (Option.getD r.course_seat_types ("")) = true := by
        rcases hseat with h | h
        · simp [h] at hcst
        · exact h
      unfold Range.clean
      rw [if_neg (by simp [hcat]), if_neg (by simp [hq]), if_neg (by simp [hcst]),
        if_neg (by simp [hcc]), if_pos (by simp [hcst])]
      exact validate_of_specSeatTypesValid _ hsv
    · unfold Range.clean
      rw [if_neg (by simp [hcat]), if_neg (by simp [hq]), if_neg (by simp [hq, hcc]),
        if_neg (by simp [hcst]), if_neg (by simp [hcst])]

/-- Witness for C6: the three rejected configurations and an accepted one. -/
theorem range_clean_claims_witness :
    (∃ e, Range.clean ⟨some ⟨[]⟩, none, some 3, none, none⟩ = Except.error e) ∧
    (∃ e, Range.clean ⟨none, some ("q"), none, none, none⟩ = Except.error e) ∧
    (∃ e, Range.clean ⟨none, some ("q"), none, some ("credit,verified"), none⟩
      = Except.error e) ∧
    Range.clean ⟨none, some ("q"), none, some ("professional,verified"), none⟩
      = Except.ok () :=
  ⟨range_clean_claims.1 ⟨some ⟨[]⟩, none, some 3, none, none⟩ (by decide) (by decide),
   range_clean_claims.2.1 ⟨none, some ("q"), none, none, none⟩
     (by decide) (by decide) (by decide) (by decide),
   range_clean_claims.2.2.1 ⟨none, some ("q"), none, some ("credit,verified"), none⟩ rfl,
   range_clean_claims.2.2.2 ⟨none, some ("q"), none, some ("professional,verified"), none⟩
     (by decide)⟩

/-- C7 (amended): the seat-type gate of `Range.contains_product` is Python
substring containment of the lowercased certificate type in the raw
`course_seat_types` string.  Whenever that substring test fails, in either
dynamic mode, the function returns exactly the inherited default membership
check — for every cache content and every remote behaviour, i.e. with no
cache access and no remote call. -/
theorem contains_product_seat_gate (r : Range) (p : Product) (superContains : Bool)
    (catalogCached : Option CatalogContainsResponse)
    (catalogRemote : Except TransportFailure CatalogContainsResponse)
    (queryCached : Option QueryContainsResponse)
    (queryRemote : Except TransportFailure QueryContainsResponse)
    (hcst : truthyOptStr r.course_seat_types = true)
    (hgate : pyInStr (strLower p.certificate_type) (Option.getD r.course_seat_types (""))
      = false)
    (hmode : truthyOptNat r.course_catalog = true ∨ truthyOptStr r.catalog_query = true) :
    Range.contains_product r p superContains catalogCached catalogRemote
        queryCached queryRemote
      = Except.ok superContains := by
  cases hcc : truthyOptNat r.course_catalog with
  | true => simp [Range.contains_product, hcc, hcst, hgate]
  | false =>
    rcases hmode with h | h
    · rw [hcc] at h; cases h
    · simp [Range.contains_product, hcc, h, hcst, hgate]

/-- Witness for C7: certificate type `honor` against seat types `credit`. -/
theorem contains_product_seat_gate_witness :
    Range.contains_product ⟨none, none, some 1, some ("credit"), none⟩
        ⟨7, "c1", "honor"⟩ true (some ⟨[("c1", false)]⟩)
        (Except.error TransportFailure.timeout) none
        (Except.error TransportFailure.timeout)
      = Except.ok true :=
  contains_product_seat_gate ⟨none, none, some 1, some ("credit"), none⟩
    ⟨7, "c1", "honor"⟩ true (some ⟨[("c1", false)]⟩)
    (Except.error TransportFailure.timeout) none
    (Except.error TransportFailure.timeout)
    (by decide) (by decide) (Or.inl (by decide))

/-- C7 counterexample: certificate type `Edit` (lowercased `edit`) is **not**
one of the comma-separated seat types `["credit"]`, yet the code takes the
remote branch (substring match) and returns the catalog answer `true`
instead of the inherited default membership check `false`. -/
theorem contains_product_seat_gate_cex :
    (pythonSplit ',' (String.toList ("credit"))).contains
        (String.toList (strLower ("Edit"))) = false ∧
    Range.contains_product ⟨none, none, some 1, some ("credit"), none⟩
        ⟨7, "c1", "Edit"⟩ false (some ⟨[("c1", true)]⟩)
        (Except.error TransportFailure.timeout) none
        (Except.error TransportFailure.timeout)
      = Except.ok true := by
  decide

/-- C10 (confirmed): in the remote-lookup branches the membership result is
obtained by indexing the resolved response map at the product's course id
with no guard: when the key is present the call returns `Except.ok` (the
mapped boolean or-ed with the inherited default), and when it is absent the
code raises a `KeyError` — the lookup is total exactly under the precondition
that the response map contains the product's course id. -/
theorem contains_product_key_lookup (r : Range) (p : Product) (superContains : Bool)
    (resp : CatalogContainsResponse) (qresp : QueryContainsResponse)
    (catalogCached : Option CatalogContainsResponse)
    (catalogRemote : Except TransportFailure CatalogContainsResponse)
    (queryCached : Option QueryContainsResponse)
    (queryRemote : Except TransportFailure QueryContainsResponse) :
    (truthyOptNat r.course_catalog = true → truthyOptStr r.course_seat_types = true →
      pyInStr (strLower p.certificate_type) (Option.getD r.course_seat_types ("")) = true →
      ((∀ b, resp.courses.lookup p.course_id = some b →
          Range.contains_product r p superContains (some resp) catalogRemote
              queryCached queryRemote
            = Except.ok (b || superContains)) ∧
        (resp.courses.lookup p.course_id = none →
          Range.contains_product r p superContains (some resp) catalogRemote
              queryCached queryRemote
            = Except.error (PyError.keyError p.course_id)))) ∧
    (truthyOptNat r.course_catalog = false → truthyOptStr r.catalog_query = true →
      truthyOptStr r.course_seat_types = true →
      pyInStr (strLower p.certificate_type) (Option.getD r.course_seat_types ("")) = true →
      ((∀ b, qresp.course_runs.lookup p.course_id = some b →
          Range.contains_product r p superContains catalogCached catalogRemote
              (some qresp) queryRemote
            = Except.ok (b || superContains)) ∧
        (qresp.course_runs.lookup p.course_id = none →
          Range.contains_product r p superContains catalogCached catalogRemote
              (some qresp) queryRemote
            = Except.error (PyError.keyError p.course_id)))) := by
  constructor
  · intro hcc hcst hgate
    constructor
    · intro b hb
      simp [Range.contains_product, hcc, hcst, hgate, catalog_contains_product, hb]
    · intro hb
      simp [Range.contains_product, hcc, hcst, hgate, catalog_contains_product, hb]
  · intro hcc hq hcst hgate
    constructor
    · intro b hb
      simp [Range.contains_product, hcc, hq, hcst, hgate, run_catalog_query, hb]
    · intro hb
      simp [Range.contains_product, hcc, hq, hcst, hgate, run_catalog_query, hb]

/-- Witness for C10: a cached response containing the course id (lookup
succeeds) and one missing it (`KeyError`). -/
theorem contains_product_key_lookup_witness :
    Range.contains_product ⟨none, none, some 1, some ("credit"), none⟩
        ⟨7, "c1", "credit"⟩ false (some ⟨[("c1", true)]⟩) (Except.ok ⟨[]⟩)
        none (Except.ok ⟨[]⟩)
      = Except.ok (true || false) ∧
    Range.contains_product ⟨none, none, some 1, some ("credit"), none⟩
        ⟨7, "c1", "credit"⟩ false (some ⟨[]⟩) (Except.ok ⟨[]⟩)
        none (Except.ok ⟨[]⟩)
      = Except.error (PyError.keyError ("c1")) :=
  ⟨((contains_product_key_lookup ⟨none, none, some 1, some ("credit"), none⟩
      ⟨7, "c1", "credit"⟩ false ⟨[("c1", true)]⟩ ⟨[]⟩ none (Except.ok ⟨[]⟩)
      none (Except.ok ⟨[]⟩)).1 (by decide) (by decide) (by decide)).1 true (by decide),
   ((contains_product_key_lookup ⟨none, none, some 1, some ("credit"), none⟩
      ⟨7, "c1", "credit"⟩ false ⟨[]⟩ ⟨[]⟩ none (Except.ok ⟨[]⟩)
      none (Except.ok ⟨[]⟩)).1 (by decide) (by decide) (by decide)).2 (by decide)⟩

end Ecommerce
